import Mathlib

/-
Verification of the `entityResource` AngularJS service
(src/Umbraco.Web.UI.Client/src/common/resources/entity.resource.js).

The service is a stateless façade of six read-only query operations; each
translates its arguments into a base-url key, an action name, a parameter
payload handed to `umbRequestHelper.getApiUrl`, and a failure message handed
to `umbRequestHelper.resourcePromise`.  The embedding below records exactly
those four pieces of data for every operation, translated from the source.
The `umbRequestHelper` collaborator itself is not among the sources; the two
definitions marked "Modelled from the spec" reconstruct the small part of its
contract that the specification describes.
-/

namespace EntityResource

/-- Values of the dynamically typed JavaScript arguments the entity resource
methods receive: strings, numbers, or the `undefined` value of a parameter
that was not supplied. -/
inductive JsVal where
  | str (s : String)
  | num (n : Int)
  | undef
  deriving DecidableEq, Repr

/-- JavaScript string coercion as performed by the `+` operator in the
source: strings stand as themselves, numbers print in decimal, and
`undefined` prints as the text "undefined". -/
def jsToString : JsVal → String
  | .str s => s
  | .num n => toString n
  | .undef => "undefined"

/-- JavaScript coercion of an array to a string (`Array.prototype.toString`,
used when `getByIds` concatenates its ids array into the failure message):
elements joined by ",", an `undefined` element rendered empty. -/
def jsArrayToString (l : List JsVal) : String :=
  String.intercalate "," (l.map fun v => match v with | .undef => "" | v => jsToString v)

/-- One JavaScript object literal, as an ordered list of key/value pairs
(object literals keep string keys in insertion order). -/
abbrev JsObj := List (String × JsVal)

/-- Third argument the source passes to `umbRequestHelper.getApiUrl`: either
an array of object literals, or an already built query string (`getByIds`
passes a string, the five other methods pass object arrays). -/
inductive Payload where
  | objs (ps : List JsObj)
  | raw (q : String)
  deriving DecidableEq

/-- Everything a method of `entityResource` determines about the HTTP request
it issues: the base-url key and action name given to
`umbRequestHelper.getApiUrl`, the parameter payload, and the failure message
given to `umbRequestHelper.resourcePromise`. -/
structure ApiRequest where
  baseUrlKey : String
  action : String
  payload : Payload
  failureMessage : String
  deriving DecidableEq

/-- Embedding of `entityResource.getById` (entity.resource.js lines 58-66). -/
def getById (id type : JsVal) : ApiRequest :=
  { baseUrlKey := "entityApiBaseUrl"
    action := "GetById"
    payload := .objs [[("id", id), ("type", type)]]
    failureMessage := "Failed to retreive entity data for id " ++ jsToString id }

/-- Embedding of `entityResource.getByIds` (entity.resource.js lines 91-106):
the query string starts empty, grows by `query += "ids=" + item + "&"` for
each element of `ids` in order, and ends with `query += "type=" + type`. -/
def getByIds (ids : List JsVal) (type : JsVal) : ApiRequest :=
  let query :=
    (ids.foldl (fun q item => q ++ ("ids=" ++ jsToString item ++ "&")) "") ++
      ("type=" ++ jsToString type)
  { baseUrlKey := "entityApiBaseUrl"
    action := "GetByIds"
    payload := .raw query
    failureMessage := "Failed to retreive entity data for ids " ++ jsArrayToString ids }

/-- Embedding of `entityResource.getAll` (entity.resource.js lines 131-139). -/
def getAll (type : JsVal) : ApiRequest :=
  { baseUrlKey := "entityApiBaseUrl"
    action := "GetAll"
    payload := .objs [[("type", type)]]
    failureMessage := "Failed to retreive entity data for type " ++ jsToString type }

/-- Embedding of `entityResource.getAncestors` (entity.resource.js lines
154-162). -/
def getAncestors (id type : JsVal) : ApiRequest :=
  { baseUrlKey := "entityApiBaseUrl"
    action := "GetAncestors"
    payload := .objs [[("id", id)], [("type", type)]]
    failureMessage := "Failed to retreive ancestor data for id " ++ jsToString id }

/-- Embedding of `entityResource.getChildren` (entity.resource.js lines
177-185). -/
def getChildren (id type : JsVal) : ApiRequest :=
  { baseUrlKey := "entityApiBaseUrl"
    action := "GetChildren"
    payload := .objs [[("id", id)], [("type", type)]]
    failureMessage := "Failed to retreive child data for id " ++ jsToString id }

/-- Embedding of `entityResource.search` (entity.resource.js lines 208-217). -/
def search (query type : JsVal) : ApiRequest :=
  { baseUrlKey := "entityApiBaseUrl"
    action := "SearchMedia"
    payload := .objs [[("query", query)], [("type", type)]]
    failureMessage := "Failed to retreive entity data for query " ++ jsToString query }

/-- Modelled from the spec: `umbRequestHelper.getApiUrl` is not among the
sources.  The spec describes it as a pure URL builder whose query carries the
supplied parameters, a parameter being "omitted or empty when not supplied"
(that is, when its value is `undefined`).  This function gives the parameter
list the builder serialises from an object-literal array: the key/value pairs
in order, with `undefined`-valued entries dropped. -/
def serializeParams (ps : List JsObj) : List (String × JsVal) :=
  ps.flatten.filter fun kv => decide (kv.2 ≠ JsVal.undef)

/-- Query-string segments joined with the "&" separator. -/
def joinAmp : List String → String
  | [] => ""
  | [s] => s
  | s :: rest => s ++ "&" ++ joinAmp rest

/-- Modelled from the spec: the query string `umbRequestHelper.getApiUrl`
appends to the built URL — a string payload is used verbatim, an
object-array payload is serialised as key=value segments joined with "&". -/
def requestQuery : Payload → String
  | .raw q => q
  | .objs ps => joinAmp ((serializeParams ps).map fun kv => kv.1 ++ "=" ++ jsToString kv.2)

/-- Outcome of the underlying `$http.get` transport call. -/
inductive HttpResult where
  | ok (body : String)
  | fail (detail : String)
  deriving DecidableEq

/-- Modelled from the spec: `umbRequestHelper.resourcePromise` is not among
the sources.  Per the spec it resolves with the parsed body on success and
"rejects with an error carrying `failureMessage` plus backend diagnostic
detail" on a transport failure. -/
def resourcePromise (result : HttpResult) (failureMessage : String) : Except String String :=
  match result with
  | .ok body => .ok body
  | .fail detail => .error (failureMessage ++ detail)

/-- Run a constructed request against a transport outcome. -/
def run (req : ApiRequest) (result : HttpResult) : Except String String :=
  resourcePromise result req.failureMessage

/-- The string `t` occurs inside `s`. -/
def ContainsStr (s t : String) : Prop := ∃ p q, s = p ++ t ++ q

/-- One call to an `entityResource` method together with its arguments. -/
inductive OpCall where
  | byId (id type : JsVal)
  | byIds (ids : List JsVal) (type : JsVal)
  | allOf (type : JsVal)
  | ancestors (id type : JsVal)
  | children (id type : JsVal)
  | searchFor (query type : JsVal)
  deriving DecidableEq

/-- Request constructed by a call, by the method it names. -/
def dispatch : OpCall → ApiRequest
  | .byId id type => getById id type
  | .byIds ids type => getByIds ids type
  | .allOf type => getAll type
  | .ancestors id type => getAncestors id type
  | .children id type => getChildren id type
  | .searchFor query type => search query type

/-- Invocation of a method as a transformer of an arbitrary ambient state
`σ`: the source methods read and write no binding outside their own locals
and arguments (the factory closes only over the injected collaborators and
declares no module-level variable), so an invocation leaves any ambient
state unchanged and its request is determined by the call alone. -/
def invoke {σ : Type} (c : OpCall) (w : σ) : ApiRequest × σ := (dispatch c, w)

/-- Sequential execution of a list of calls, threading the ambient state. -/
def runCalls {σ : Type} : List OpCall → σ → List ApiRequest × σ
  | [], w => ([], w)
  | c :: cs, w =>
    let s1 := invoke c w
    let s2 := runCalls cs s1.2
    (s1.1 :: s2.1, s2.2)

/-- Auxiliary: the fold that accumulates the `ids=` segments of `getByIds`
splits off its accumulator on the left. -/
theorem getByIds_fold_acc (l : List JsVal) (acc : String) :
    l.foldl (fun q item => q ++ ("ids=" ++ jsToString item ++ "&")) acc
      = acc ++ l.foldl (fun q item => q ++ ("ids=" ++ jsToString item ++ "&")) "" := by
  induction l generalizing acc with
  | nil => simp [String.append_empty]
  | cons i rest ih =>
    simp only [List.foldl_cons]
    rw [ih (acc ++ ("ids=" ++ jsToString i ++ "&")),
      ih ("" ++ ("ids=" ++ jsToString i ++ "&")), String.empty_append, String.append_assoc]

/-- Auxiliary: joining a segment onto a non-empty segment list inserts one
"&" separator. -/
theorem joinAmp_cons (s : String) (l : List String) (h : l ≠ []) :
    joinAmp (s :: l) = s ++ "&" ++ joinAmp l := by
  cases l with
  | nil => exact absurd rfl h
  | cons a l' => rfl

/-- Auxiliary: the query string built by `getByIds` is the "&"-join of one
"ids=" segment per element, in order, then the "type=" segment. -/
theorem getByIds_query_join (type : JsVal) (ids : List JsVal) :
    (ids.foldl (fun q item => q ++ ("ids=" ++ jsToString item ++ "&")) "") ++
        ("type=" ++ jsToString type)
      = joinAmp (ids.map (fun i => "ids=" ++ jsToString i) ++ ["type=" ++ jsToString type]) := by
  induction ids with
  | nil => simp [joinAmp, String.empty_append]
  | cons i rest ih =>
    rw [List.foldl_cons, getByIds_fold_acc, String.empty_append, List.map_cons,
      List.cons_append, joinAmp_cons _ _ (by simp), ← ih]
    simp [String.append_assoc]

/-- C1: for every non-empty ids sequence and every type value, the query
string `getByIds` builds consists of one "ids=" segment per input element,
in input order, followed by a single "type=" segment, all joined by "&". -/
theorem getByIds_query_segments (ids : List JsVal) (type : JsVal) (_h : ids ≠ []) :
    requestQuery (getByIds ids type).payload
      = joinAmp (ids.map (fun i => "ids=" ++ jsToString i) ++ ["type=" ++ jsToString type]) := by
  simpa [getByIds, requestQuery] using getByIds_query_join type ids

/-- Witness for C1 at ids = [1234, 2526], type = "Template". -/
theorem getByIds_query_segments_witness :
    ([JsVal.num 1234, JsVal.num 2526] ≠ ([] : List JsVal)) ∧
      requestQuery (getByIds [JsVal.num 1234, JsVal.num 2526] (JsVal.str "Template")).payload
        = joinAmp ([JsVal.num 1234, JsVal.num 2526].map (fun i => "ids=" ++ jsToString i) ++
            ["type=" ++ jsToString (JsVal.str "Template")]) :=
  ⟨by decide, getByIds_query_segments _ _ (by decide)⟩

/-- C2: `getById` builds a request with action name "GetById" whose
serialised query parameters are exactly the id and the type, the type
parameter dropped when it is not supplied. -/
theorem getById_request (id type : JsVal) (h : id ≠ JsVal.undef) :
    (getById id type).action = "GetById" ∧
      ∃ ps, (getById id type).payload = Payload.objs ps ∧
        serializeParams ps =
          ("id", id) :: (if type = JsVal.undef then [] else [("type", type)]) := by
  refine ⟨rfl, [[("id", id), ("type", type)]], rfl, ?_⟩
  cases type <;> cases id <;> simp_all [serializeParams]

/-- Witness for C2 at id = 0, type = "Media". -/
theorem getById_request_witness :
    (JsVal.num 0 ≠ JsVal.undef) ∧
      ((getById (JsVal.num 0) (JsVal.str "Media")).action = "GetById" ∧
        ∃ ps, (getById (JsVal.num 0) (JsVal.str "Media")).payload = Payload.objs ps ∧
          serializeParams ps =
            ("id", JsVal.num 0) ::
              (if JsVal.str "Media" = JsVal.undef then [] else [("type", JsVal.str "Media")])) :=
  ⟨by decide, getById_request (JsVal.num 0) (JsVal.str "Media") (by decide)⟩

/-- C3: `getAll` called with no type argument builds a request with action
name "GetAll" whose serialised parameter list omits the type filter
entirely. -/
theorem getAll_omits_undefined_type :
    (getAll JsVal.undef).action = "GetAll" ∧
      ∃ ps, (getAll JsVal.undef).payload = Payload.objs ps ∧ serializeParams ps = [] :=
  ⟨rfl, [[("type", JsVal.undef)]], rfl, rfl⟩

/-- C4: `search` on the query "news" with type omitted builds a request with
action name "SearchMedia" whose serialised parameters are exactly
query=news, with no type filter. -/
theorem search_news_request :
    (search (JsVal.str "news") JsVal.undef).action = "SearchMedia" ∧
      ∃ ps, (search (JsVal.str "news") JsVal.undef).payload = Payload.objs ps ∧
        serializeParams ps = [("query", JsVal.str "news")] :=
  ⟨rfl, [[("query", JsVal.str "news")], [("type", JsVal.undef)]], rfl, rfl⟩

/-- C5: whenever the transport call fails, every operation rejects with a
message containing the identifying context supplied by the caller: the id
for getById, getAncestors and getChildren, the id list for getByIds, the
type for getAll, and the query string for search. -/
theorem failure_message_context (id type query : JsVal) (idList : List JsVal) (d : String) :
    (∃ m, run (getById id type) (HttpResult.fail d) = Except.error m ∧
        ContainsStr m (jsToString id)) ∧
      (∃ m, run (getByIds idList type) (HttpResult.fail d) = Except.error m ∧
        ContainsStr m (jsArrayToString idList)) ∧
      (∃ m, run (getAll type) (HttpResult.fail d) = Except.error m ∧
        ContainsStr m (jsToString type)) ∧
      (∃ m, run (getAncestors id type) (HttpResult.fail d) = Except.error m ∧
        ContainsStr m (jsToString id)) ∧
      (∃ m, run (getChildren id type) (HttpResult.fail d) = Except.error m ∧
        ContainsStr m (jsToString id)) ∧
      (∃ m, run (search query type) (HttpResult.fail d) = Except.error m ∧
        ContainsStr m (jsToString query)) := by
  refine ⟨⟨_, rfl, "Failed to retreive entity data for id ", d, ?_⟩,
    ⟨_, rfl, "Failed to retreive entity data for ids ", d, ?_⟩,
    ⟨_, rfl, "Failed to retreive entity data for type ", d, ?_⟩,
    ⟨_, rfl, "Failed to retreive ancestor data for id ", d, ?_⟩,
    ⟨_, rfl, "Failed to retreive child data for id ", d, ?_⟩,
    ⟨_, rfl, "Failed to retreive entity data for query ", d, ?_⟩⟩ <;>
  simp [run, resourcePromise, getById, getByIds, getAll, getAncestors, getChildren, search,
    String.append_assoc]

/-- C6: `getAncestors` builds a request with action name "GetAncestors"
whose serialised parameters are the given id and type (type dropped when not
supplied), and its failure message includes the id. -/
theorem getAncestors_request (id type : JsVal) (h : id ≠ JsVal.undef) :
    (getAncestors id type).action = "GetAncestors" ∧
      (∃ ps, (getAncestors id type).payload = Payload.objs ps ∧
        serializeParams ps =
          ("id", id) :: (if type = JsVal.undef then [] else [("type", type)])) ∧
      ContainsStr (getAncestors id type).failureMessage (jsToString id) := by
  refine ⟨rfl, ⟨[[("id", id)], [("type", type)]], rfl, ?_⟩,
    "Failed to retreive ancestor data for id ", "", ?_⟩
  · cases type <;> cases id <;> simp_all [serializeParams]
  · rw [String.append_empty]; rfl

/-- Witness for C6 at id = 7, type = "Document". -/
theorem getAncestors_request_witness :
    (JsVal.num 7 ≠ JsVal.undef) ∧
      ((getAncestors (JsVal.num 7) (JsVal.str "Document")).action = "GetAncestors" ∧
        (∃ ps, (getAncestors (JsVal.num 7) (JsVal.str "Document")).payload = Payload.objs ps ∧
          serializeParams ps =
            ("id", JsVal.num 7) ::
              (if JsVal.str "Document" = JsVal.undef then []
               else [("type", JsVal.str "Document")])) ∧
        ContainsStr (getAncestors (JsVal.num 7) (JsVal.str "Document")).failureMessage
          (jsToString (JsVal.num 7))) :=
  ⟨by decide, getAncestors_request (JsVal.num 7) (JsVal.str "Document") (by decide)⟩

/-- C7: request construction is a pure function of the call: a sequence of
invocations threaded through any ambient state leaves the state unchanged
and yields for each call exactly the request of that call alone, and the
request of a call does not depend on the ambient state. -/
theorem invocations_independent {σ : Type} (cs : List OpCall) (w w' : σ) (c : OpCall) :
    runCalls cs w = (cs.map dispatch, w) ∧ (invoke c w).1 = (invoke c w').1 := by
  refine ⟨?_, rfl⟩
  induction cs generalizing w with
  | nil => rfl
  | cons a as ih => simp [runCalls, invoke, ih]

/-- C8: `getByIds` on an empty ids sequence builds the query string
consisting solely of "type=" followed by the type value, with no "ids="
segments. -/
theorem getByIds_empty_ids (type : JsVal) :
    requestQuery (getByIds [] type).payload = "type=" ++ jsToString type := by
  simp [getByIds, requestQuery, String.empty_append]

/-- C9: `getByIds` never omits the type segment: with type not supplied, the
built query string ends with the literal text "type=undefined". -/
theorem getByIds_type_undefined (ids : List JsVal) :
    ∃ p, requestQuery (getByIds ids JsVal.undef).payload = p ++ "type=undefined" :=
  ⟨ids.foldl (fun q item => q ++ ("ids=" ++ jsToString item ++ "&")) "", rfl⟩

/-- C10: every one of the six operations resolves its URL against the same
base-url key, the literal string "entityApiBaseUrl". -/
theorem baseUrlKey_uniform (c : OpCall) : (dispatch c).baseUrlKey = "entityApiBaseUrl" := by
  cases c <;> rfl

end EntityResource
